import Mathlib

/-
Verification of the InstaBot backend core pipeline against its
natural-language specification.

The definitions below are a shallow embedding of the Python source:

  * `backend/app/db/models.py`        — data model (InstagramAccount,
    AutomationSettings, ActionLog, enums);
  * `backend/app/worker/tasks.py`     — the Celery worker tasks
    `process_comment_event`, `post_comment_reply`, `send_dm`, together
    with the Celery retry driver implied by
    `@shared_task(bind=True, max_retries=..., default_retry_delay=...)`;
  * `backend/app/api/routes/webhooks.py` — signature verification and the
    webhook POST handler;
  * `backend/app/core/middleware.py`  — the sliding-window rate limiter;
  * `backend/app/core/config.py` and `backend/app/main.py` — configuration
    defaults and route mounting.

Database queries (`db.query(...).filter(...).first()`) are embedded as
`List.find?` over in-memory lists; `db.add` + `db.commit` appends to the
list of `ActionLog` rows.  Wall-clock timestamps (`datetime.utcnow()`,
`time.time()`) are embedded as `Int` values passed in explicitly.  The
outcome of an outbound HTTPS call is an explicit `ApiResult` parameter.
HMAC-SHA256 and JSON parsing are treated as opaque function parameters:
the claims settled here depend only on the control flow around them.
-/

namespace InstaBot

/-! ### Python string helpers

`keyword.lower() in comment_text.lower()` and `path.startswith(p)` are
embedded by explicit recursion over the character lists of the strings. -/

/-- Boolean test that the first character list is an initial segment of
the second; embeds Python `str.startswith` (and the initial-segment step
of `in`). -/
def charsStartWith : List Char → List Char → Bool
  | [], _ => true
  | _ :: _, [] => false
  | a :: as, b :: bs => a == b && charsStartWith as bs

/-- Boolean substring test on character lists: the first list occurs
contiguously inside the second.  Embeds the Python `in` operator on
strings (an empty needle occurs in every string). -/
def charsContain : List Char → List Char → Bool
  | n, [] => n.isEmpty
  | n, h :: t => charsStartWith n (h :: t) || charsContain n t

/-- Python `needle in hay` for strings. -/
def pyIn (needle hay : String) : Bool :=
  charsContain needle.toList hay.toList

/-- Python `s.lower()` (ASCII case folding, as used on keywords and
comment text). -/
def pyLower (s : String) : String :=
  String.mk (s.toList.map Char.toLower)

/-- Python `path.startswith(p)`. -/
def pyStartsWith (path p : String) : Bool :=
  charsStartWith p.toList path.toList

/-! ### Data model (`backend/app/db/models.py`) -/

/-- Enum `ActionType` from `models.py`. -/
inductive ActionType
  | COMMENT_REPLY
  | DM_SENT
  | WEBHOOK_RECEIVED
  | ERROR
deriving DecidableEq, Repr

/-- Enum `AutomationType` from `models.py`. -/
inductive AutomationType
  | AUTO_REPLY_COMMENT
  | SEND_DM
deriving DecidableEq, Repr

instance : BEq ActionType := ⟨fun a b => decide (a = b)⟩
instance : BEq AutomationType := ⟨fun a b => decide (a = b)⟩

instance : LawfulBEq ActionType :=
  ⟨fun h => of_decide_eq_true h, fun {_a} => decide_eq_true rfl⟩
instance : LawfulBEq AutomationType :=
  ⟨fun h => of_decide_eq_true h, fun {_a} => decide_eq_true rfl⟩

/-- Row of table `instagram_accounts`.  Only the columns read by the
worker tasks are carried. -/
structure InstagramAccount where
  id : Int
  user_id : Int
  instagram_user_id : String
  access_token_encrypted : String
  is_active : Bool
deriving DecidableEq, Repr

/-- Row of table `automation_settings`.  `template_message` and
`trigger_keywords` are nullable `Text` columns; `trigger_keywords` holds
a JSON array of keywords.  We embed `trigger_keywords` as
`Option (List String)`: `none` stands for SQL `NULL` (the falsy case of
`if settings.trigger_keywords:` in Python, since `json.dumps` of a list
is never the empty string), and `some l` stands for the stored JSON text
`json.dumps l` (always truthy, even for `l = []`, where the stored text
is `"[]"`). -/
structure AutomationSettings where
  instagram_account_id : Option Int
  automation_type : AutomationType
  is_enabled : Bool
  template_message : Option String
  trigger_keywords : Option (List String)
deriving DecidableEq, Repr

/-- Row of table `action_logs`.  `created_at` (a UTC timestamp) is
embedded as seconds, `Int`-valued. -/
structure ActionLog where
  user_id : Int
  instagram_account_id : Option Int
  action_type : ActionType
  status : String
  details : Option String
  comment_id : Option String
  recipient_id : Option String
  message_sent : Option String
  error_message : Option String
  created_at : Int
deriving DecidableEq, Repr

/-- Python truthiness of a nullable `Text` column (`None` and `""` are
falsy), as applied to `template_message` in
`if should_reply and auto_reply_settings.template_message:`. -/
def textTruthy : Option String → Bool
  | none => false
  | some s => !(s == "")

/-! ### Worker tasks (`backend/app/worker/tasks.py`) -/

/-- The `value` dict of a `comments` webhook change, as read by
`process_comment_event`: `comment_data.get("id")`,
`comment_data.get("text", "")`, `comment_data.get("from", {}).get("id")`. -/
structure CommentData where
  id : Option String
  text : Option String
  fromId : Option String
deriving DecidableEq, Repr

/-- Argument record of a `post_comment_reply.delay(...)` call. -/
structure ReplyTask where
  account_id : Int
  comment_id : Option String
  reply_text : String
  user_id : Int
deriving DecidableEq, Repr

/-- Argument record of a `send_dm.delay(...)` call. -/
structure DmTask where
  account_id : Int
  recipient_id : String
  message_text : String
  user_id : Int
  comment_id : Option String
deriving DecidableEq, Repr

/-- A task enqueued by `process_comment_event`. -/
inductive DispatchedTask
  | reply (t : ReplyTask)
  | dm (t : DmTask)
deriving DecidableEq, Repr

/-- Evaluation of the trigger-keyword condition in
`process_comment_event`: `should_reply`/`should_dm` starts `True` and is
replaced by `any(keyword.lower() in comment_text.lower() for keyword in
keywords)` when the stored `trigger_keywords` column is truthy. -/
def keywordsFire (trigger_keywords : Option (List String)) (comment_text : String) : Bool :=
  match trigger_keywords with
  | none => true
  | some keywords => keywords.any fun keyword => pyIn (pyLower keyword) (pyLower comment_text)

/-- Result of one execution of `process_comment_event`: the `ActionLog`
table afterwards, the tasks enqueued via `.delay`, and the `status` field
of the returned dict. -/
structure ProcessResult where
  log : List ActionLog
  tasks : List DispatchedTask
  status : String
deriving Repr

/-- The auto-reply branch of `process_comment_event`: look up the enabled
`AUTO_REPLY_COMMENT` row for the account; when found, fire iff the
trigger-keyword condition and the truthiness of `template_message` both
hold, enqueueing one `post_comment_reply.delay` call. -/
def replyDispatch (autos : List AutomationSettings) (account : InstagramAccount)
    (comment_id : Option String) (comment_text : String) : List DispatchedTask :=
  match autos.find? fun s =>
      s.instagram_account_id == some account.id &&
      s.automation_type == AutomationType.AUTO_REPLY_COMMENT && s.is_enabled with
  | none => []
  | some s =>
    if keywordsFire s.trigger_keywords comment_text && textTruthy s.template_message then
      [DispatchedTask.reply
        ⟨account.id, comment_id, s.template_message.getD "", account.user_id⟩]
    else []

/-- The send-DM branch of `process_comment_event`: look up the enabled
`SEND_DM` row for the account; the guard `if dm_settings and
commenter_id:` additionally requires a truthy commenter id; when it
holds, fire iff the trigger-keyword condition and the truthiness of
`template_message` both hold, enqueueing one `send_dm.delay` call. -/
def dmDispatch (autos : List AutomationSettings) (account : InstagramAccount)
    (comment_id : Option String) (comment_text : String)
    (commenter_id : Option String) : List DispatchedTask :=
  match autos.find? fun s =>
      s.instagram_account_id == some account.id &&
      s.automation_type == AutomationType.SEND_DM && s.is_enabled with
  | none => []
  | some s =>
    match commenter_id with
    | none => []
    | some cid =>
      if cid == "" then []
      else if keywordsFire s.trigger_keywords comment_text && textTruthy s.template_message then
        [DispatchedTask.dm
          ⟨account.id, cid, s.template_message.getD "", account.user_id, comment_id⟩]
      else []

/-- One execution of `process_comment_event(instagram_user_id,
comment_data)` from `tasks.py`, over account rows `accounts`, automation
rows `autos`, audit rows `log`, at wall-clock time `now`. -/
def process_comment_event (accounts : List InstagramAccount)
    (autos : List AutomationSettings) (log : List ActionLog) (now : Int)
    (instagram_user_id : String) (comment_data : CommentData) : ProcessResult :=
  match accounts.find? fun a =>
      a.instagram_user_id == instagram_user_id && a.is_active with
  | none => ⟨log, [], "skipped"⟩
  | some account =>
    let log := log ++ [{ user_id := account.user_id
                         instagram_account_id := some account.id
                         action_type := ActionType.WEBHOOK_RECEIVED
                         status := "success"
                         details := some "comment_data"
                         comment_id := comment_data.id
                         recipient_id := none
                         message_sent := none
                         error_message := none
                         created_at := now }]
    let comment_id := comment_data.id
    let comment_text := comment_data.text.getD ""
    let commenter_id := comment_data.fromId
    ⟨log,
     replyDispatch autos account comment_id comment_text
       ++ dmDispatch autos account comment_id comment_text commenter_id,
     "processed"⟩

/-- Outcome of the single outbound HTTPS call a worker task makes:
`ok` is a 200 response (with the decoded external id), `err` any other
status with its raw body, `netError` an exception raised by the HTTP
client before any response was classified. -/
inductive ApiResult
  | ok (external_id : Option String)
  | err (status : Nat) (body : String)
  | netError
deriving DecidableEq, Repr

/-- How one execution of a worker task ends: `returned s` is a normal
return (dict with `"status": s`); `raised` means the body raised and the
handler called `self.retry(exc=e)`. -/
inductive TaskEnd
  | returned (status : String)
  | raised
deriving DecidableEq, Repr

/-- Result of one execution of `post_comment_reply` or `send_dm`: the
`ActionLog` table afterwards, whether the outbound HTTPS call was
performed, and how the execution ended. -/
structure ExecResult where
  log : List ActionLog
  networkCalled : Bool
  outcome : TaskEnd
deriving Repr

/-- The lookback window of the DM dedup check,
`timedelta(hours=24)` in seconds. -/
def dmWindowSeconds : Int := 24 * 3600

/-- One execution of `post_comment_reply(account_id, comment_id,
reply_text, user_id)` from `tasks.py`.  `api` is the outcome of the
`POST /{comment_id}/replies` call. -/
def post_comment_reply (accounts : List InstagramAccount) (log : List ActionLog)
    (now : Int) (api : ApiResult) (account_id : Int) (comment_id : Option String)
    (reply_text : String) (user_id : Int) : ExecResult :=
  match accounts.find? fun a => a.id == account_id with
  | none => ⟨log, false, TaskEnd.returned "failed"⟩
  | some _account =>
    match api with
    | ApiResult.ok _ =>
      ⟨log ++ [{ user_id := user_id
                 instagram_account_id := some account_id
                 action_type := ActionType.COMMENT_REPLY
                 status := "success"
                 details := some "result"
                 comment_id := comment_id
                 recipient_id := none
                 message_sent := some reply_text
                 error_message := none
                 created_at := now }],
       true, TaskEnd.returned "success"⟩
    | ApiResult.err _ body =>
      ⟨log ++ [{ user_id := user_id
                 instagram_account_id := some account_id
                 action_type := ActionType.COMMENT_REPLY
                 status := "failed"
                 details := none
                 comment_id := comment_id
                 recipient_id := none
                 message_sent := some reply_text
                 error_message := some body
                 created_at := now }],
       true, TaskEnd.raised⟩
    | ApiResult.netError => ⟨log, true, TaskEnd.raised⟩

/-- Predicate of the `recent_dm` query in `send_dm`: a `success`
`DM_SENT` row for the same `(instagram_account_id, recipient_id)` with
`created_at >= datetime.utcnow() - timedelta(hours=24)`. -/
def recentDmMatch (account_id : Int) (recipient_id : String) (now : Int)
    (e : ActionLog) : Bool :=
  e.instagram_account_id == some account_id &&
  e.recipient_id == some recipient_id &&
  e.action_type == ActionType.DM_SENT &&
  e.status == "success" &&
  decide (now - dmWindowSeconds ≤ e.created_at)

/-- The `skipped` `ActionLog` row `send_dm` writes when the dedup guard
fires. -/
def skippedDmLog (account_id : Int) (recipient_id : String)
    (message_text : String) (user_id : Int) (now : Int) : ActionLog :=
  { user_id := user_id
    instagram_account_id := some account_id
    action_type := ActionType.DM_SENT
    status := "skipped"
    details := some "Already sent DM within 24 hours"
    comment_id := none
    recipient_id := some recipient_id
    message_sent := some message_text
    error_message := none
    created_at := now }

/-- One execution of `send_dm(account_id, recipient_id, message_text,
user_id, comment_id)` from `tasks.py`.  `api` is the outcome of the
`POST /me/messages` call, reached only when neither the account lookup
nor the 24-hour dedup guard short-circuits. -/
def send_dm (accounts : List InstagramAccount) (log : List ActionLog)
    (now : Int) (api : ApiResult) (account_id : Int) (recipient_id : String)
    (message_text : String) (user_id : Int) (comment_id : Option String) : ExecResult :=
  match accounts.find? fun a => a.id == account_id with
  | none => ⟨log, false, TaskEnd.returned "failed"⟩
  | some _account =>
    match log.find? (recentDmMatch account_id recipient_id now) with
    | some _recent =>
      ⟨log ++ [skippedDmLog account_id recipient_id message_text user_id now],
       false, TaskEnd.returned "skipped"⟩
    | none =>
      match api with
      | ApiResult.ok _ =>
        ⟨log ++ [{ user_id := user_id
                   instagram_account_id := some account_id
                   action_type := ActionType.DM_SENT
                   status := "success"
                   details := some "result"
                   comment_id := comment_id
                   recipient_id := some recipient_id
                   message_sent := some message_text
                   error_message := none
                   created_at := now }],
         true, TaskEnd.returned "success"⟩
      | ApiResult.err _ body =>
        ⟨log ++ [{ user_id := user_id
                   instagram_account_id := some account_id
                   action_type := ActionType.DM_SENT
                   status := "failed"
                   details := none
                   comment_id := comment_id
                   recipient_id := some recipient_id
                   message_sent := some message_text
                   error_message := some body
                   created_at := now }],
         true, TaskEnd.raised⟩
      | ApiResult.netError => ⟨log, true, TaskEnd.raised⟩

/-! ### Celery retry driver

`@shared_task(bind=True, max_retries=N, default_retry_delay=D)` together
with the `raise self.retry(exc=e)` pattern means: the task body runs with
`self.request.retries = 0`; each `self.retry` while `retries <
max_retries` schedules a redelivery (`retries + 1`) after `D` seconds;
when `retries = max_retries`, `self.retry` raises
`MaxRetriesExceededError` and the task is abandoned.  So a task that
raises on every execution runs `max_retries + 1` times in total. -/

/-- Decorator arguments of the three tasks in `tasks.py`. -/
def process_comment_event_max_retries : Nat := 3

/-- Decorator argument `default_retry_delay=60` of `process_comment_event`. -/
def process_comment_event_default_retry_delay : Nat := 60

/-- Decorator argument `max_retries=3` of `post_comment_reply`. -/
def post_comment_reply_max_retries : Nat := 3

/-- Decorator argument `default_retry_delay=30` of `post_comment_reply`. -/
def post_comment_reply_default_retry_delay : Nat := 30

/-- Decorator argument `max_retries=3` of `send_dm`. -/
def send_dm_max_retries : Nat := 3

/-- Decorator argument `default_retry_delay=30` of `send_dm`. -/
def send_dm_default_retry_delay : Nat := 30

/-- Celery redelivery loop.  `exec r log` runs the task body once with
`self.request.retries = r` over audit rows `log`; `fuel` bounds the
recursion (`celeryRun` supplies `max_retries + 1`, which the retries
counter can never exceed).  Returns the final audit rows, the number of
executions performed, and the status of the last normal return
(`none` when the task was abandoned by `MaxRetriesExceededError`). -/
def celerySteps (max_retries : Nat) (exec : Nat → List ActionLog → ExecResult) :
    Nat → Nat → List ActionLog → List ActionLog × Nat × Option String
  | 0, _, log => (log, 0, none)
  | fuel + 1, retries, log =>
    let r := exec retries log
    match r.outcome with
    | TaskEnd.returned s => (r.log, 1, some s)
    | TaskEnd.raised =>
      if retries < max_retries then
        let rest := celerySteps max_retries exec fuel (retries + 1) r.log
        (rest.1, rest.2.1 + 1, rest.2.2)
      else (r.log, 1, none)

/-- Delivery plus all Celery redeliveries of one task. -/
def celeryRun (max_retries : Nat) (exec : Nat → List ActionLog → ExecResult)
    (log : List ActionLog) : List ActionLog × Nat × Option String :=
  celerySteps max_retries exec (max_retries + 1) 0 log

/-! ### Webhook endpoint (`backend/app/api/routes/webhooks.py`) -/

/-- Function `verify_webhook_signature(payload, signature)`.
`hmacSha256Hex secret payload` stands for
`hmac.new(secret.encode(), payload, hashlib.sha256).hexdigest()` and is
passed in opaquely; `hmac.compare_digest` is constant-time string
equality.  An unconfigured `META_APP_SECRET` (empty string) returns
`false` before any HMAC is computed. -/
def verify_webhook_signature (hmacSha256Hex : String → String → String)
    (META_APP_SECRET : String) (payload : String) (signature : String) : Bool :=
  if META_APP_SECRET == "" then false
  else ("sha256=" ++ hmacSha256Hex META_APP_SECRET payload) == signature

/-- One `change` of a webhook `entry`. -/
structure WebhookChange where
  field : Option String
  value : CommentData
deriving DecidableEq, Repr

/-- One `entry` of a webhook payload; `entry.get("changes", [])` and
`entry.get("messaging", [])`. -/
structure WebhookEntry where
  id : Option String
  changes : List WebhookChange
  messagingCount : Nat
deriving DecidableEq, Repr

/-- A parsed webhook POST body. -/
structure WebhookPayload where
  object : Option String
  entry : List WebhookEntry
deriving DecidableEq, Repr

/-- Result of the webhook POST endpoint: HTTP status and the
`process_comment_event.delay(instagram_user_id, comment_data)` calls
made.  The endpoint itself writes no `ActionLog` row; audit rows are
written only by the worker tasks behind the enqueued calls. -/
structure WebhookResult where
  status : Nat
  enqueued : List (Option String × CommentData)
deriving DecidableEq, Repr

/-- Endpoint `POST /webhooks/instagram` (`handle_instagram_webhook`).
`parse` stands for `json.loads` (`none` = `JSONDecodeError`); `body` is
the raw request body, `signature` the `X-Hub-Signature-256` header
(`""` when absent).  A bad signature raises HTTP 403 before parsing;
unparseable JSON raises HTTP 400; otherwise every `comments` change of
every entry of an `instagram` payload is enqueued and the endpoint
returns 200. -/
def handle_instagram_webhook (hmacSha256Hex : String → String → String)
    (parse : String → Option WebhookPayload) (META_APP_SECRET : String)
    (body : String) (signature : String) : WebhookResult :=
  if !verify_webhook_signature hmacSha256Hex META_APP_SECRET body signature then
    ⟨403, []⟩
  else
    match parse body with
    | none => ⟨400, []⟩
    | some payload =>
      if payload.object == some "instagram" then
        ⟨200,
         payload.entry.foldr
           (fun e acc =>
             ((e.changes.filter fun c => c.field == some "comments").map
               fun c => (e.id, c.value)) ++ acc)
           []⟩
      else ⟨200, []⟩

/-! ### Rate limiting (`backend/app/core/middleware.py`, `config.py`,
`main.py`)

The per-client Redis sorted set `rate_limit:{client_ip}:{path}` is
embedded as a `List Int` of request timestamps (distinct members, as
`zadd` keys members by `str(now)`); `time.time()` values are embedded as
`Int` seconds.  The `expire` TTL call only garbage-collects idle keys and
is not modelled. -/

/-- Configuration default `RATE_LIMIT_PER_MINUTE` from `config.py`. -/
def RATE_LIMIT_PER_MINUTE : Nat := 60

/-- Configuration default `RATE_LIMIT_AUTH_PER_MINUTE` from `config.py`. -/
def RATE_LIMIT_AUTH_PER_MINUTE : Nat := 10

/-- Configuration default `API_V1_PREFIX` from `config.py`, under which
`main.py` mounts `api_router` (`app.include_router(api_router,
prefix=settings.API_V1_PREFIX)`). -/
def API_V1_BASE : String := "/api/v1"

/-- The `auth_paths` list of `RateLimitMiddleware.get_rate_limit`. -/
def auth_paths : List String :=
  ["/api/auth/login", "/api/auth/register", "/api/auth/forgot-password"]

/-- Method `RateLimitMiddleware.get_rate_limit(path)`: returns
`(max_requests, window_seconds)`; `(0, 0)` means the path is not rate
limited. -/
def get_rate_limit (path : String) : Nat × Nat :=
  if auth_paths.any fun p => pyStartsWith path p then
    (RATE_LIMIT_AUTH_PER_MINUTE, 60)
  else if pyStartsWith path "/api/" then
    (RATE_LIMIT_PER_MINUTE, 60)
  else (0, 0)

/-- Path of the mounted login route: router prefix `/auth` (`auth.py`)
under `API_V1_PREFIX` (`main.py`). -/
def mountedLoginPath : String := API_V1_BASE ++ "/auth/login"

/-- Path of the mounted webhook event route: router prefix `/webhooks`
(`webhooks.py`) under `API_V1_PREFIX` (`main.py`). -/
def mountedWebhookPath : String := API_V1_BASE ++ "/webhooks/instagram"

/-- Pipeline step `zremrangebyscore(key, 0, window_start)`: drops every
member whose score lies in `[0, window_start]`. -/
def pruneWindow (window_start : Int) (w : List Int) : List Int :=
  w.filter fun t => !(decide (0 ≤ t) && decide (t ≤ window_start))

/-- Pipeline step `zadd(key, {str(now): now})`: inserts `now` as a set
member (a no-op when the member already exists). -/
def zaddMember (w : List Int) (now : Int) : List Int :=
  if w.contains now then w else w ++ [now]

/-- What the middleware returns for one request: `limited = false` means
the request passed through untouched (exempt path or Redis down);
`rejected = true` means the 429 `JSONResponse` was returned instead of
calling the application; `headers` are the rate-limit headers set on the
response. -/
structure RLResponse where
  limited : Bool
  rejected : Bool
  headers : List (String × String)
deriving DecidableEq, Repr

/-- Response construction of `RateLimitMiddleware.dispatch` after the
Redis pipeline ran: `request_count` is the `zcard` result (taken after
the prune, before the `zadd` of the current request). -/
def mkStepResponse (max_requests window_seconds : Nat) (now : Int)
    (request_count : Nat) : RLResponse :=
  let headers : List (String × String) :=
    [("X-RateLimit-Limit", toString max_requests),
     ("X-RateLimit-Remaining",
      toString (max 0 ((max_requests : Int) - (request_count : Int) - 1))),
     ("X-RateLimit-Reset", toString (now + (window_seconds : Int)))]
  if max_requests ≤ request_count then
    ⟨true, true, headers ++ [("Retry-After", toString window_seconds)]⟩
  else
    ⟨true, false, headers⟩

/-- Method `RateLimitMiddleware.dispatch` for one request at time `now`
with sorted-set state `w`; `redisUp = false` is the "Redis unavailable,
allow the request" fallback.  Returns the response and the new sorted-set
state. -/
def rate_limit_dispatch (path : String) (redisUp : Bool) (now : Int)
    (w : List Int) : RLResponse × List Int :=
  let limits := get_rate_limit path
  if limits.1 == 0 then (⟨false, false, []⟩, w)
  else if !redisUp then (⟨false, false, []⟩, w)
  else
    let window_start := now - (limits.2 : Int)
    let pruned := pruneWindow window_start w
    let request_count := pruned.length
    let w' := zaddMember pruned now
    (mkStepResponse limits.1 limits.2 now request_count, w')

/-- A sequence of requests to the same `(client_ip, path)` key, threaded
through the middleware state. -/
def runRequests (path : String) (redisUp : Bool) :
    List Int → List Int → List RLResponse × List Int
  | [], w => ([], w)
  | t :: ts, w =>
    let step := rate_limit_dispatch path redisUp t w
    let rest := runRequests path redisUp ts step.2
    (step.1 :: rest.1, rest.2)

/-- Membership of a header name in a header list. -/
def hasHeader (headers : List (String × String)) (name : String) : Bool :=
  headers.any fun h => h.1 == name

/-- An always-failing `send_dm` execution (HTTP 500 on every attempt),
used to exercise the retry cap. -/
def sendDmAlwaysFailing : Nat → List ActionLog → ExecResult :=
  fun _ log =>
    send_dm [⟨1, 7, "ig1", "tok", true⟩] log 0 (ApiResult.err 500 "boom")
      1 "u1" "m" 7 none

/-- Spec-side reading of the trigger condition of §4.3: the keyword set
is absent, or at least one keyword is a case-insensitive substring of
the event text. -/
def keywordCondition (trigger_keywords : Option (List String)) (text : String) : Prop :=
  trigger_keywords = none
  ∨ ∃ kws keyword, trigger_keywords = some kws ∧ keyword ∈ kws
      ∧ pyIn (pyLower keyword) (pyLower text) = true

/-- Spec-side reading of "non-empty template message". -/
def templateNonEmpty (template_message : Option String) : Prop :=
  ∃ m, template_message = some m ∧ m ≠ ""

/-! ### Helper lemmas -/

/-- The boolean keyword check of the worker agrees with the spec-side
trigger condition. -/
theorem keywordsFire_iff (trigger_keywords : Option (List String)) (text : String) :
    keywordsFire trigger_keywords text = true ↔ keywordCondition trigger_keywords text := by
  cases trigger_keywords with
  | none => simp [keywordsFire, keywordCondition]
  | some kws =>
    simp only [keywordsFire, keywordCondition, List.any_eq_true]
    constructor
    · rintro ⟨k, hk, hin⟩
      exact Or.inr ⟨kws, k, rfl, hk, hin⟩
    · rintro (h | ⟨kws', k, hkws, hk, hin⟩)
      · exact absurd h (by simp)
      · obtain rfl : kws = kws' := by injection hkws
        exact ⟨k, hk, hin⟩

/-- Python truthiness of `template_message` agrees with the spec-side
"non-empty template" condition. -/
theorem textTruthy_iff (template_message : Option String) :
    textTruthy template_message = true ↔ templateNonEmpty template_message := by
  cases template_message with
  | none => simp [textTruthy, templateNonEmpty]
  | some s => simp [textTruthy, templateNonEmpty]

/-- Characterization of the auto-reply branch: a reply task is enqueued
iff an enabled rule row is found and the spec-side firing condition
holds. -/
theorem reply_mem_replyDispatch_iff (autos : List AutomationSettings)
    (account : InstagramAccount) (comment_id : Option String) (comment_text : String) :
    (∃ t, DispatchedTask.reply t ∈ replyDispatch autos account comment_id comment_text)
      ↔ ∃ s, autos.find? (fun s =>
            s.instagram_account_id == some account.id &&
            s.automation_type == AutomationType.AUTO_REPLY_COMMENT && s.is_enabled) = some s
          ∧ keywordCondition s.trigger_keywords comment_text
          ∧ templateNonEmpty s.template_message := by
  unfold replyDispatch
  cases hfd : autos.find? (fun s =>
      s.instagram_account_id == some account.id &&
      s.automation_type == AutomationType.AUTO_REPLY_COMMENT && s.is_enabled) with
  | none => simp
  | some s =>
    dsimp only
    by_cases hc : (keywordsFire s.trigger_keywords comment_text
        && textTruthy s.template_message) = true
    · have hk := (Bool.and_eq_true _ _).mp hc
      rw [if_pos hc]
      constructor
      · intro _
        exact ⟨s, rfl, (keywordsFire_iff _ _).mp hk.1, (textTruthy_iff _).mp hk.2⟩
      · intro _
        exact ⟨_, List.mem_singleton_self _⟩
    · rw [if_neg hc]
      constructor
      · rintro ⟨t, ht⟩
        exact absurd ht (List.not_mem_nil _)
      · rintro ⟨s', hs', hkw, htm⟩
        obtain rfl : s = s' := by injection hs'
        exact absurd ((Bool.and_eq_true _ _).mpr
          ⟨(keywordsFire_iff _ _).mpr hkw, (textTruthy_iff _).mpr htm⟩) hc

/-- Characterization of the send-DM branch: a DM task is enqueued iff an
enabled rule row is found, the spec-side firing condition holds, and the
commenter id is present and non-empty. -/
theorem dm_mem_dmDispatch_iff (autos : List AutomationSettings)
    (account : InstagramAccount) (comment_id : Option String)
    (comment_text : String) (commenter_id : Option String) :
    (∃ t, DispatchedTask.dm t ∈
        dmDispatch autos account comment_id comment_text commenter_id)
      ↔ ∃ s, autos.find? (fun s =>
            s.instagram_account_id == some account.id &&
            s.automation_type == AutomationType.SEND_DM && s.is_enabled) = some s
          ∧ keywordCondition s.trigger_keywords comment_text
          ∧ templateNonEmpty s.template_message
          ∧ ∃ cid, commenter_id = some cid ∧ cid ≠ "" := by
  unfold dmDispatch
  cases hfd : autos.find? (fun s =>
      s.instagram_account_id == some account.id &&
      s.automation_type == AutomationType.SEND_DM && s.is_enabled) with
  | none => simp
  | some s =>
    dsimp only
    cases commenter_id with
    | none => simp
    | some cid =>
      dsimp only
      by_cases hcid : cid = ""
      · subst hcid
        simp
      · have hcid' : ¬ ((cid == "") = true) := by
          simpa using hcid
        rw [if_neg hcid']
        by_cases hc : (keywordsFire s.trigger_keywords comment_text
            && textTruthy s.template_message) = true
        · have hk := (Bool.and_eq_true _ _).mp hc
          rw [if_pos hc]
          constructor
          · intro _
            exact ⟨s, rfl, (keywordsFire_iff _ _).mp hk.1,
              (textTruthy_iff _).mp hk.2, cid, rfl, hcid⟩
          · intro _
            exact ⟨_, List.mem_singleton_self _⟩
        · rw [if_neg hc]
          constructor
          · rintro ⟨t, ht⟩
            exact absurd ht (List.not_mem_nil _)
          · rintro ⟨s', hs', hkw, htm, _⟩
            obtain rfl : s = s' := by injection hs'
            exact absurd ((Bool.and_eq_true _ _).mpr
              ⟨(keywordsFire_iff _ _).mpr hkw, (textTruthy_iff _).mpr htm⟩) hc

/-- Every task produced by the send-DM branch is a DM task. -/
theorem not_reply_mem_dmDispatch (autos : List AutomationSettings)
    (account : InstagramAccount) (comment_id : Option String)
    (comment_text : String) (commenter_id : Option String) (t : ReplyTask) :
    DispatchedTask.reply t ∉
      dmDispatch autos account comment_id comment_text commenter_id := by
  unfold dmDispatch
  cases autos.find? (fun s =>
      s.instagram_account_id == some account.id &&
      s.automation_type == AutomationType.SEND_DM && s.is_enabled) with
  | none => simp
  | some s =>
    dsimp only
    cases commenter_id with
    | none => simp
    | some cid =>
      dsimp only
      by_cases h1 : (cid == "") = true
      · simp [h1]
      · by_cases h2 : (keywordsFire s.trigger_keywords comment_text
            && textTruthy s.template_message) = true
        · rw [if_neg h1, if_pos h2]
          simp
        · rw [if_neg h1, if_neg h2]
          simp

/-- Every task produced by the auto-reply branch is a reply task. -/
theorem not_dm_mem_replyDispatch (autos : List AutomationSettings)
    (account : InstagramAccount) (comment_id : Option String)
    (comment_text : String) (t : DmTask) :
    DispatchedTask.dm t ∉ replyDispatch autos account comment_id comment_text := by
  unfold replyDispatch
  cases autos.find? (fun s =>
      s.instagram_account_id == some account.id &&
      s.automation_type == AutomationType.AUTO_REPLY_COMMENT && s.is_enabled) with
  | none => simp
  | some s =>
    dsimp only
    by_cases h : (keywordsFire s.trigger_keywords comment_text
        && textTruthy s.template_message) = true
    · rw [if_pos h]
      simp
    · rw [if_neg h]
      simp

/-- When the account resolves, the tasks of `process_comment_event` are
exactly the two branch dispatch lists. -/
theorem process_comment_event_tasks (accounts : List InstagramAccount)
    (autos : List AutomationSettings) (log : List ActionLog) (now : Int)
    (instagram_user_id : String) (comment_data : CommentData)
    (acct : InstagramAccount)
    (hacct : accounts.find?
        (fun a => a.instagram_user_id == instagram_user_id && a.is_active)
        = some acct) :
    (process_comment_event accounts autos log now instagram_user_id
        comment_data).tasks
      = replyDispatch autos acct comment_data.id (comment_data.text.getD "")
        ++ dmDispatch autos acct comment_data.id (comment_data.text.getD "")
            comment_data.fromId := by
  simp [process_comment_event, hacct]

/-- When the account row exists and some audit row matches the dedup
query, `send_dm` short-circuits: one `skipped` row, no network call. -/
theorem send_dm_dedup_skips (accounts : List InstagramAccount)
    (log : List ActionLog) (now : Int) (api : ApiResult) (account_id : Int)
    (recipient_id message_text : String) (user_id : Int)
    (comment_id : Option String) (acct : InstagramAccount)
    (hacct : accounts.find? (fun a => a.id == account_id) = some acct)
    (hrecent : ∃ e ∈ log, recentDmMatch account_id recipient_id now e = true) :
    send_dm accounts log now api account_id recipient_id message_text user_id
        comment_id =
      ⟨log ++ [skippedDmLog account_id recipient_id message_text user_id now],
       false, TaskEnd.returned "skipped"⟩ := by
  have hfd : ∃ r, log.find? (recentDmMatch account_id recipient_id now) = some r := by
    cases h : log.find? (recentDmMatch account_id recipient_id now) with
    | some r => exact ⟨r, rfl⟩
    | none =>
      obtain ⟨e, he, hm⟩ := hrecent
      exact absurd hm (by simpa using List.find?_eq_none.mp h e he)
  obtain ⟨r, hr⟩ := hfd
  simp [send_dm, hacct, hr]

/-- The execution counter of the Celery loop is bounded by its fuel. -/
theorem celerySteps_count_le (max_retries : Nat)
    (exec : Nat → List ActionLog → ExecResult) :
    ∀ (fuel retries : Nat) (log : List ActionLog),
      (celerySteps max_retries exec fuel retries log).2.1 ≤ fuel := by
  intro fuel
  induction fuel with
  | zero => intro retries log; simp [celerySteps]
  | succ n ih =>
    intro retries log
    simp only [celerySteps]
    cases (exec retries log).outcome with
    | returned s => simp
    | raised =>
      by_cases h : retries < max_retries
      · simpa [h] using Nat.succ_le_succ (ih (retries + 1) (exec retries log).log)
      · simp [h]

/-! ### Claims -/

/-- C1 (counterexample).  The claim says that redelivering a dispatch
task that already produced a recorded `success` AuditLogEntry never
performs the network call again, because the implementation checks
"has this exact task attempt already succeeded" before the call — for
reply tasks via a per-comment idempotency check.  `post_comment_reply`
makes no such check: redelivered here with the audit log already holding
a `success` `COMMENT_REPLY` row for the very same account and comment,
it performs the network call again (`networkCalled = true`). -/
theorem c1_counterexample :
    (post_comment_reply [⟨1, 7, "ig1", "tok", true⟩]
        [⟨7, some 1, ActionType.COMMENT_REPLY, "success", some "result",
          some "c1", none, some "DM us!", none, 50⟩]
        100 (ApiResult.ok (some "r1")) 1 (some "c1") "DM us!" 7).networkCalled
      = true := by
  decide

/-- C1 (amended).  Only the DM path is idempotent on redelivery: after a
recorded recent `success` `send_dm` entry for the same
`(account_id, recipient_id)`, redelivering the DM task performs no
network call (the Dedup Guard runs before the call).  Reply tasks have no
local idempotency check: whenever the account resolves,
`post_comment_reply` performs the network call regardless of any prior
`success` entry (the design relies on the platform rejecting duplicate
replies). -/
theorem c1_amended_idempotence :
    (∀ (accounts : List InstagramAccount) (log : List ActionLog) (now : Int)
        (api : ApiResult) (account_id : Int) (recipient_id message_text : String)
        (user_id : Int) (comment_id : Option String) (acct : InstagramAccount),
        accounts.find? (fun a => a.id == account_id) = some acct →
        (∃ e ∈ log, recentDmMatch account_id recipient_id now e = true) →
        (send_dm accounts log now api account_id recipient_id message_text
            user_id comment_id).networkCalled = false)
    ∧ (∀ (accounts : List InstagramAccount) (log : List ActionLog) (now : Int)
        (api : ApiResult) (account_id : Int) (comment_id : Option String)
        (reply_text : String) (user_id : Int) (acct : InstagramAccount),
        accounts.find? (fun a => a.id == account_id) = some acct →
        (post_comment_reply accounts log now api account_id comment_id
            reply_text user_id).networkCalled = true) := by
  constructor
  · intro accounts log now api account_id recipient_id message_text user_id
      comment_id acct hacct hrecent
    rw [send_dm_dedup_skips accounts log now api account_id recipient_id
      message_text user_id comment_id acct hacct hrecent]
  · intro accounts log now api account_id comment_id reply_text user_id acct hacct
    cases api <;> simp [post_comment_reply, hacct]

/-- C1 (witness).  The amended idempotence law at concrete inputs: a DM
redelivery facing a fresh `success` row is skipped, a reply redelivery
facing a fresh `success` row still calls the network. -/
theorem c1_amended_idempotence_witness :
    (([⟨1, 7, "ig1", "tok", true⟩] :
        List InstagramAccount).find? (fun a => a.id == 1) =
        some ⟨1, 7, "ig1", "tok", true⟩
      ∧ (∃ e ∈ [(⟨7, some 1, ActionType.DM_SENT, "success", none, none,
            some "u1", some "m", none, 50⟩ : ActionLog)],
          recentDmMatch 1 "u1" 200 e = true))
    ∧ (send_dm [⟨1, 7, "ig1", "tok", true⟩]
        [⟨7, some 1, ActionType.DM_SENT, "success", none, none, some "u1",
          some "m", none, 50⟩]
        200 (ApiResult.ok none) 1 "u1" "m" 7 none).networkCalled = false
    ∧ (post_comment_reply [⟨1, 7, "ig1", "tok", true⟩]
        [⟨7, some 1, ActionType.COMMENT_REPLY, "success", none, some "c1",
          none, some "m", none, 50⟩]
        200 (ApiResult.ok none) 1 (some "c1") "m" 7).networkCalled = true := by
  refine ⟨⟨by decide, by decide⟩, ?_, ?_⟩
  · exact c1_amended_idempotence.1 _ _ 200 (ApiResult.ok none) 1 "u1" "m" 7 none
      ⟨1, 7, "ig1", "tok", true⟩ (by decide) (by decide)
  · exact c1_amended_idempotence.2 _ _ 200 (ApiResult.ok none) 1 (some "c1") "m" 7
      ⟨1, 7, "ig1", "tok", true⟩ (by decide)

/-- C5 (counterexample).  The claim says failed executions are retried
"up to 3 attempts total".  With Celery's `max_retries=3`, a task whose
API call fails on every execution is executed 4 times in total (the
initial delivery plus 3 retries), not 3. -/
theorem c5_counterexample :
    (celeryRun send_dm_max_retries sendDmAlwaysFailing []).2.1 = 4
    ∧ ¬ (celeryRun send_dm_max_retries sendDmAlwaysFailing []).2.1 ≤ 3 := by
  decide

/-- C5 (amended).  Retry policy: `max_retries = 3` for all three tasks,
base delay 60s for comment-event fan-out and 30s for reply/DM execution;
a task is executed at most `max_retries + 1 = 4` times in total; a DM
task whose API call fails on every execution is executed exactly 4
times, is then abandoned (no normal return), and every one of its audit
rows is a `failed` entry — the final state recorded in the Audit Log is
`failed`. -/
theorem c5_retry_policy :
    (process_comment_event_max_retries = 3 ∧ post_comment_reply_max_retries = 3
      ∧ send_dm_max_retries = 3)
    ∧ (process_comment_event_default_retry_delay = 60
      ∧ post_comment_reply_default_retry_delay = 30
      ∧ send_dm_default_retry_delay = 30)
    ∧ (∀ (max_retries : Nat) (exec : Nat → List ActionLog → ExecResult)
        (log : List ActionLog),
        (celeryRun max_retries exec log).2.1 ≤ max_retries + 1)
    ∧ ((celeryRun send_dm_max_retries sendDmAlwaysFailing []).2.1
          = send_dm_max_retries + 1
      ∧ (celeryRun send_dm_max_retries sendDmAlwaysFailing []).2.2 = none
      ∧ ((celeryRun send_dm_max_retries sendDmAlwaysFailing []).1.all
          fun e => e.status == "failed") = true
      ∧ (celeryRun send_dm_max_retries sendDmAlwaysFailing []).1.length = 4) := by
  refine ⟨⟨rfl, rfl, rfl⟩, ⟨rfl, rfl, rfl⟩, ?_, by decide, by decide, by decide,
    by decide⟩
  intro max_retries exec log
  exact celerySteps_count_le max_retries exec (max_retries + 1) 0 log

/-- C6 (counterexample).  The claim says a comment event whose account
is unknown or inactive is still audit-logged with status `skipped`.  For
an inactive account the task returns `"skipped"` and dispatches nothing,
but the `ActionLog` table is left untouched: no AuditLogEntry is
written. -/
theorem c6_counterexample :
    (process_comment_event [⟨1, 7, "ig1", "tok", false⟩] [] [] 0 "ig1"
        ⟨some "c1", some "hello", none⟩).status = "skipped"
    ∧ (process_comment_event [⟨1, 7, "ig1", "tok", false⟩] [] [] 0 "ig1"
        ⟨some "c1", some "hello", none⟩).log = []
    ∧ (process_comment_event [⟨1, 7, "ig1", "tok", false⟩] [] [] 0 "ig1"
        ⟨some "c1", some "hello", none⟩).tasks = [] := by
  decide

/-- C6 (amended).  When `external_account_id` resolves to no connected
account or only to an inactive one, `process_comment_event` produces no
matches and dispatches no task, returning status `"skipped"` — but it
writes no AuditLogEntry (the miss is reported only through the
application logger and the returned dict). -/
theorem c6_resolution_miss (accounts : List InstagramAccount)
    (autos : List AutomationSettings) (log : List ActionLog) (now : Int)
    (instagram_user_id : String) (comment_data : CommentData)
    (hmiss : accounts.find?
        (fun a => a.instagram_user_id == instagram_user_id && a.is_active) = none) :
    process_comment_event accounts autos log now instagram_user_id comment_data
      = ⟨log, [], "skipped"⟩ := by
  simp [process_comment_event, hmiss]

/-- C6 (witness).  The amended resolution-miss law at a concrete input:
one inactive account, one unknown account id. -/
theorem c6_resolution_miss_witness :
    ([⟨1, 7, "ig1", "tok", false⟩] :
        List InstagramAccount).find?
        (fun a => a.instagram_user_id == "ig1" && a.is_active) = none
    ∧ process_comment_event [⟨1, 7, "ig1", "tok", false⟩] [] [] 0 "ig1"
        ⟨some "c1", some "hello", none⟩ = ⟨[], [], "skipped"⟩ := by
  exact ⟨by decide, c6_resolution_miss _ _ _ 0 "ig1" _ (by decide)⟩

/-- C7.  The spec's route classes say mounted auth routes get the strict
cap (default 10/min) and webhook paths are exempt.  The middleware
matches `auth_paths` such as `/api/auth/login`, but `main.py` mounts all
routers under `API_V1_PREFIX = "/api/v1"`, so the mounted login route
`/api/v1/auth/login` falls through to the general `/api/` class
(60/min), and the mounted webhook route `/api/v1/webhooks/instagram` is
likewise capped at 60/min instead of being exempt — contradicting the
code's own comments ("Stricter limits for auth endpoints", "No rate
limiting for static files, webhooks, etc."). -/
theorem c7_route_class_bug :
    get_rate_limit mountedLoginPath = (RATE_LIMIT_PER_MINUTE, 60)
    ∧ get_rate_limit mountedWebhookPath = (RATE_LIMIT_PER_MINUTE, 60)
    ∧ RATE_LIMIT_PER_MINUTE ≠ RATE_LIMIT_AUTH_PER_MINUTE
    ∧ ¬ get_rate_limit mountedWebhookPath = (0, 0) := by
  decide

/-- C4.  Every webhook POST whose body fails HMAC-SHA256 verification is
answered with HTTP 403 and enqueues nothing, for every possible JSON
parser — so the rejection happens before any parsing; and with an
unconfigured (empty) shared secret, verification returns `false` for
every body and signature: it fails closed without throwing. -/
theorem c4_signature_gate :
    (∀ (hmacSha256Hex : String → String → String)
        (parse : String → Option WebhookPayload) (secret body signature : String),
        verify_webhook_signature hmacSha256Hex secret body signature = false →
        handle_instagram_webhook hmacSha256Hex parse secret body signature
          = ⟨403, []⟩)
    ∧ (∀ (hmacSha256Hex : String → String → String) (body signature : String),
        verify_webhook_signature hmacSha256Hex "" body signature = false) := by
  constructor
  · intro hmacSha256Hex parse secret body signature h
    simp [handle_instagram_webhook, h]
  · intro hmacSha256Hex body signature
    simp [verify_webhook_signature]

/-- C4 (witness).  The signature gate at a concrete input: empty secret,
arbitrary body and signature, a parser that would accept anything. -/
theorem c4_signature_gate_witness :
    verify_webhook_signature (fun _ _ => "h") "" "body" "sig" = false
    ∧ handle_instagram_webhook (fun _ _ => "h")
        (fun _ => some ⟨some "instagram", []⟩) "" "body" "sig" = ⟨403, []⟩ := by
  have h := c4_signature_gate.2 (fun _ _ => "h") "body" "sig"
  exact ⟨h, c4_signature_gate.1 (fun _ _ => "h")
    (fun _ => some ⟨some "instagram", []⟩) "" "body" "sig" h⟩

/-- C9.  Every webhook POST that passes signature verification but whose
body is not parseable as JSON is answered with HTTP 400 and enqueues no
task; since the endpoint itself writes no audit rows and no worker task
runs, no AuditLogEntry is written. -/
theorem c9_malformed_json (hmacSha256Hex : String → String → String)
    (parse : String → Option WebhookPayload) (secret body signature : String)
    (hsig : verify_webhook_signature hmacSha256Hex secret body signature = true)
    (hparse : parse body = none) :
    handle_instagram_webhook hmacSha256Hex parse secret body signature
      = ⟨400, []⟩ := by
  simp [handle_instagram_webhook, hsig, hparse]

/-- C9 (witness).  The malformed-JSON rejection at a concrete input: a
correctly signed body the parser rejects. -/
theorem c9_malformed_json_witness :
    verify_webhook_signature (fun _ _ => "h") "k" "not-json" "sha256=h" = true
    ∧ handle_instagram_webhook (fun _ _ => "h") (fun _ => none) "k" "not-json"
        "sha256=h" = ⟨400, []⟩ := by
  exact ⟨by decide, c9_malformed_json (fun _ _ => "h") (fun _ => none) "k"
    "not-json" "sha256=h" (by decide) rfl⟩

/-- C3 (counterexample).  An account with an enabled auto-reply rule
whose stored `trigger_keywords` is the empty list (per the claim, an
empty keyword set is match-all) and whose template is non-empty, and an
enabled send-DM rule with absent keywords (match-all) and a non-empty
template; the inbound comment carries text but no commenter id.  Per the
claim both rules fire; the code dispatches nothing: a stored empty
keyword list matches no text (`any` over the empty decoded list is
false), and the DM branch additionally requires a present commenter id,
so the law is not identical across the two branches. -/
theorem c3_counterexample :
    (process_comment_event [⟨1, 7, "ig1", "tok", true⟩]
        [⟨some 1, AutomationType.AUTO_REPLY_COMMENT, true, some "DM us!", some []⟩,
         ⟨some 1, AutomationType.SEND_DM, true, some "hi there", none⟩]
        [] 0 "ig1" ⟨some "c1", some "hello", none⟩).tasks = [] := by
  decide

/-- C3 (amended).  When the account resolves, a reply task is dispatched
iff the enabled auto-reply rule exists, its keyword condition holds
(keywords absent, or some keyword a case-insensitive substring of the
event text — a stored empty keyword list matches nothing) and its
template is non-empty; a DM task is dispatched iff the enabled send-DM
rule exists, the same keyword and template conditions hold, and
additionally the commenter id is present and non-empty. -/
theorem c3_matching_law (accounts : List InstagramAccount)
    (autos : List AutomationSettings) (log : List ActionLog) (now : Int)
    (instagram_user_id : String) (comment_data : CommentData)
    (acct : InstagramAccount)
    (hacct : accounts.find?
        (fun a => a.instagram_user_id == instagram_user_id && a.is_active)
        = some acct) :
    ((∃ t, DispatchedTask.reply t ∈ (process_comment_event accounts autos log
          now instagram_user_id comment_data).tasks)
      ↔ ∃ s, autos.find? (fun s =>
            s.instagram_account_id == some acct.id &&
            s.automation_type == AutomationType.AUTO_REPLY_COMMENT && s.is_enabled)
            = some s
          ∧ keywordCondition s.trigger_keywords (comment_data.text.getD "")
          ∧ templateNonEmpty s.template_message)
    ∧ ((∃ t, DispatchedTask.dm t ∈ (process_comment_event accounts autos log
          now instagram_user_id comment_data).tasks)
      ↔ ∃ s, autos.find? (fun s =>
            s.instagram_account_id == some acct.id &&
            s.automation_type == AutomationType.SEND_DM && s.is_enabled) = some s
          ∧ keywordCondition s.trigger_keywords (comment_data.text.getD "")
          ∧ templateNonEmpty s.template_message
          ∧ ∃ cid, comment_data.fromId = some cid ∧ cid ≠ "") := by
  rw [process_comment_event_tasks accounts autos log now instagram_user_id
    comment_data acct hacct]
  constructor
  · constructor
    · rintro ⟨t, ht⟩
      rcases List.mem_append.mp ht with h | h
      · exact (reply_mem_replyDispatch_iff autos acct comment_data.id
          (comment_data.text.getD "")).mp ⟨t, h⟩
      · exact absurd h (not_reply_mem_dmDispatch autos acct comment_data.id
          (comment_data.text.getD "") comment_data.fromId t)
    · intro h
      obtain ⟨t, ht⟩ := (reply_mem_replyDispatch_iff autos acct comment_data.id
        (comment_data.text.getD "")).mpr h
      exact ⟨t, List.mem_append.mpr (Or.inl ht)⟩
  · constructor
    · rintro ⟨t, ht⟩
      rcases List.mem_append.mp ht with h | h
      · exact absurd h (not_dm_mem_replyDispatch autos acct comment_data.id
          (comment_data.text.getD "") t)
      · exact (dm_mem_dmDispatch_iff autos acct comment_data.id
          (comment_data.text.getD "") comment_data.fromId).mp ⟨t, h⟩
    · intro h
      obtain ⟨t, ht⟩ := (dm_mem_dmDispatch_iff autos acct comment_data.id
        (comment_data.text.getD "") comment_data.fromId).mpr h
      exact ⟨t, List.mem_append.mpr (Or.inr ht)⟩

/-- C3 (witness).  The amended matching law at a concrete input: a
keyword rule matching case-insensitively and a match-all DM rule, on a
comment with a commenter id, dispatch one reply task and one DM task. -/
theorem c3_matching_law_witness :
    ([⟨1, 7, "ig1", "tok", true⟩] : List InstagramAccount).find?
        (fun a => a.instagram_user_id == "ig1" && a.is_active)
        = some ⟨1, 7, "ig1", "tok", true⟩
    ∧ (∃ t, DispatchedTask.reply t ∈ (process_comment_event
          [⟨1, 7, "ig1", "tok", true⟩]
          [⟨some 1, AutomationType.AUTO_REPLY_COMMENT, true, some "DM us!",
            some ["discount"]⟩,
           ⟨some 1, AutomationType.SEND_DM, true, some "hi there", none⟩]
          [] 0 "ig1" ⟨some "c1", some "big DISCOUNT now", some "u1"⟩).tasks)
    ∧ (∃ t, DispatchedTask.dm t ∈ (process_comment_event
          [⟨1, 7, "ig1", "tok", true⟩]
          [⟨some 1, AutomationType.AUTO_REPLY_COMMENT, true, some "DM us!",
            some ["discount"]⟩,
           ⟨some 1, AutomationType.SEND_DM, true, some "hi there", none⟩]
          [] 0 "ig1" ⟨some "c1", some "big DISCOUNT now", some "u1"⟩).tasks) := by
  refine ⟨by decide, ?_, ?_⟩
  · exact (c3_matching_law [⟨1, 7, "ig1", "tok", true⟩]
      [⟨some 1, AutomationType.AUTO_REPLY_COMMENT, true, some "DM us!",
        some ["discount"]⟩,
       ⟨some 1, AutomationType.SEND_DM, true, some "hi there", none⟩]
      [] 0 "ig1" ⟨some "c1", some "big DISCOUNT now", some "u1"⟩
      ⟨1, 7, "ig1", "tok", true⟩ (by decide)).1.mpr
      ⟨⟨some 1, AutomationType.AUTO_REPLY_COMMENT, true, some "DM us!",
        some ["discount"]⟩, by decide,
       Or.inr ⟨["discount"], "discount", rfl, by decide, by decide⟩,
       "DM us!", rfl, by decide⟩
  · exact (c3_matching_law [⟨1, 7, "ig1", "tok", true⟩]
      [⟨some 1, AutomationType.AUTO_REPLY_COMMENT, true, some "DM us!",
        some ["discount"]⟩,
       ⟨some 1, AutomationType.SEND_DM, true, some "hi there", none⟩]
      [] 0 "ig1" ⟨some "c1", some "big DISCOUNT now", some "u1"⟩
      ⟨1, 7, "ig1", "tok", true⟩ (by decide)).2.mpr
      ⟨⟨some 1, AutomationType.SEND_DM, true, some "hi there", none⟩, by decide,
       Or.inl rfl, ⟨"hi there", rfl, by decide⟩, "u1", rfl, by decide⟩

/-- C2.  The Dedup Guard: (1) when the audit log holds a `success`
`send_dm` row for the same `(account_id, recipient_id)` within the last
24 hours, the DM task makes no API call and appends exactly one
`skipped` row; (2) of two DM tasks for the same `(account, recipient)`
executed within the window, the first succeeding, the second is skipped
without a network call — at most one `success`; (3) the enqueue decision
of `process_comment_event` never reads the audit log, so the check runs
at execution time, not dispatch time. -/
theorem c2_dedup_guard :
    (∀ (accounts : List InstagramAccount) (log : List ActionLog) (now : Int)
        (api : ApiResult) (account_id : Int) (recipient_id message_text : String)
        (user_id : Int) (comment_id : Option String) (acct : InstagramAccount),
        accounts.find? (fun a => a.id == account_id) = some acct →
        (∃ e ∈ log, recentDmMatch account_id recipient_id now e = true) →
        send_dm accounts log now api account_id recipient_id message_text
            user_id comment_id
          = ⟨log ++ [skippedDmLog account_id recipient_id message_text user_id now],
             false, TaskEnd.returned "skipped"⟩)
    ∧ (∀ (accounts : List InstagramAccount) (log : List ActionLog)
        (now₁ now₂ : Int) (ext : Option String) (api₂ : ApiResult)
        (account_id : Int) (recipient_id m₁ m₂ : String) (u₁ u₂ : Int)
        (c₁ c₂ : Option String) (acct : InstagramAccount),
        accounts.find? (fun a => a.id == account_id) = some acct →
        log.find? (recentDmMatch account_id recipient_id now₁) = none →
        now₂ - dmWindowSeconds ≤ now₁ →
        (send_dm accounts log now₁ (ApiResult.ok ext) account_id recipient_id
            m₁ u₁ c₁).outcome = TaskEnd.returned "success"
        ∧ (send_dm accounts
            (send_dm accounts log now₁ (ApiResult.ok ext) account_id recipient_id
              m₁ u₁ c₁).log
            now₂ api₂ account_id recipient_id m₂ u₂ c₂).outcome
          = TaskEnd.returned "skipped"
        ∧ (send_dm accounts
            (send_dm accounts log now₁ (ApiResult.ok ext) account_id recipient_id
              m₁ u₁ c₁).log
            now₂ api₂ account_id recipient_id m₂ u₂ c₂).networkCalled = false)
    ∧ (∀ (accounts : List InstagramAccount) (autos : List AutomationSettings)
        (log₁ log₂ : List ActionLog) (now : Int) (instagram_user_id : String)
        (comment_data : CommentData),
        (process_comment_event accounts autos log₁ now instagram_user_id
          comment_data).tasks
        = (process_comment_event accounts autos log₂ now instagram_user_id
          comment_data).tasks) := by
  refine ⟨?_, ?_, ?_⟩
  · intro accounts log now api account_id recipient_id message_text user_id
      comment_id acct hacct hrecent
    exact send_dm_dedup_skips accounts log now api account_id recipient_id
      message_text user_id comment_id acct hacct hrecent
  · intro accounts log now₁ now₂ ext api₂ account_id recipient_id m₁ m₂ u₁ u₂
      c₁ c₂ acct hacct hnone hwin
    have hfirst : send_dm accounts log now₁ (ApiResult.ok ext) account_id
        recipient_id m₁ u₁ c₁
        = ⟨log ++ [{ user_id := u₁
                     instagram_account_id := some account_id
                     action_type := ActionType.DM_SENT
                     status := "success"
                     details := some "result"
                     comment_id := c₁
                     recipient_id := some recipient_id
                     message_sent := some m₁
                     error_message := none
                     created_at := now₁ }],
           true, TaskEnd.returned "success"⟩ := by
      simp [send_dm, hacct, hnone]
    have hrec : ∃ e ∈ (send_dm accounts log now₁ (ApiResult.ok ext) account_id
        recipient_id m₁ u₁ c₁).log,
        recentDmMatch account_id recipient_id now₂ e = true := by
      rw [hfirst]
      refine ⟨_, List.mem_append_right _ (List.mem_singleton_self _), ?_⟩
      simpa [recentDmMatch] using hwin
    have hskip := send_dm_dedup_skips accounts _ now₂ api₂ account_id
      recipient_id m₂ u₂ c₂ acct hacct hrec
    exact ⟨by rw [hfirst], by rw [hskip], by rw [hskip]⟩
  · intro accounts autos log₁ log₂ now instagram_user_id comment_data
    cases h : accounts.find?
        (fun a => a.instagram_user_id == instagram_user_id && a.is_active) with
    | none => simp [process_comment_event, h]
    | some acct => simp [process_comment_event, h]

/-- C2 (witness).  The dedup guard at concrete inputs: a recent success
row short-circuits a DM task; a success at time 100 makes a second task
at time 200 skip. -/
theorem c2_dedup_guard_witness :
    (([⟨1, 7, "ig1", "tok", true⟩] : List InstagramAccount).find?
        (fun a => a.id == 1) = some ⟨1, 7, "ig1", "tok", true⟩
      ∧ (∃ e ∈ [(⟨7, some 1, ActionType.DM_SENT, "success", none, none,
            some "u1", some "m", none, 50⟩ : ActionLog)],
          recentDmMatch 1 "u1" 200 e = true)
      ∧ ([] : List ActionLog).find? (recentDmMatch 1 "u1" 100) = none
      ∧ (200 : Int) - dmWindowSeconds ≤ 100)
    ∧ send_dm [⟨1, 7, "ig1", "tok", true⟩]
        [⟨7, some 1, ActionType.DM_SENT, "success", none, none, some "u1",
          some "m", none, 50⟩]
        200 (ApiResult.ok none) 1 "u1" "m2" 7 none
      = ⟨[⟨7, some 1, ActionType.DM_SENT, "success", none, none, some "u1",
          some "m", none, 50⟩] ++ [skippedDmLog 1 "u1" "m2" 7 200],
         false, TaskEnd.returned "skipped"⟩
    ∧ ((send_dm [⟨1, 7, "ig1", "tok", true⟩] [] 100 (ApiResult.ok none) 1 "u1"
          "m1" 7 none).outcome = TaskEnd.returned "success"
      ∧ (send_dm [⟨1, 7, "ig1", "tok", true⟩]
          (send_dm [⟨1, 7, "ig1", "tok", true⟩] [] 100 (ApiResult.ok none) 1
            "u1" "m1" 7 none).log
          200 (ApiResult.ok none) 1 "u1" "m2" 7 none).outcome
        = TaskEnd.returned "skipped"
      ∧ (send_dm [⟨1, 7, "ig1", "tok", true⟩]
          (send_dm [⟨1, 7, "ig1", "tok", true⟩] [] 100 (ApiResult.ok none) 1
            "u1" "m1" 7 none).log
          200 (ApiResult.ok none) 1 "u1" "m2" 7 none).networkCalled = false) := by
  refine ⟨⟨by decide, by decide, by decide, by decide⟩, ?_, ?_⟩
  · exact c2_dedup_guard.1 _ _ 200 (ApiResult.ok none) 1 "u1" "m2" 7 none
      ⟨1, 7, "ig1", "tok", true⟩ (by decide) (by decide)
  · exact c2_dedup_guard.2.1 _ _ 100 200 none (ApiResult.ok none) 1 "u1" "m1"
      "m2" 7 7 none none ⟨1, 7, "ig1", "tok", true⟩ (by decide) (by decide)
      (by decide)

/-- One middleware step on a capped path with Redis up, when no window
entry is prunable and the current timestamp is fresh: the response is
computed from the pre-`zadd` count `w.length` and the new window is
`w ++ [now]`. -/
theorem rate_limit_step_eq (path : String) (maxR winS : Nat) (now : Int)
    (w : List Int) (hpath : get_rate_limit path = (maxR, winS)) (hR : maxR ≠ 0)
    (hkeep : ∀ s ∈ w, ¬ (0 ≤ s ∧ s ≤ now - (winS : Int))) (hfresh : now ∉ w) :
    rate_limit_dispatch path true now w
      = (mkStepResponse maxR winS now w.length, w ++ [now]) := by
  have h0 : ((maxR, winS).1 == 0) = false := by
    simpa using hR
  have hprune : pruneWindow (now - (winS : Int)) w = w := by
    apply List.filter_eq_self.mpr
    intro s hs
    have h := hkeep s hs
    simp only [not_and, not_le] at h
    simp only [Bool.not_eq_true', Bool.and_eq_false_iff, decide_eq_false_iff_not,
      not_le]
    omega
  have hz : zaddMember w now = w ++ [now] := by
    unfold zaddMember
    rw [if_neg]
    intro h
    exact hfresh (List.elem_iff.mp h)
  simp only [rate_limit_dispatch, hpath, h0, Bool.false_eq_true, if_false,
    Bool.not_true, hprune, hz]

/-- Characterization of a burst of requests to a capped path while Redis
is up: when the starting window cannot be pruned at any request time and
the request times are fresh, increasing, and mutually within one window,
the i-th request (counting from `w.length`) is answered from count `i`
and the final window is `w ++ ts`. -/
theorem runRequests_spec (path : String) (maxR winS : Nat)
    (hpath : get_rate_limit path = (maxR, winS)) (hR : maxR ≠ 0) :
    ∀ (ts w : List Int),
      (∀ t ∈ ts, ∀ s ∈ w, t - (winS : Int) < s ∧ s < t) →
      ts.Pairwise (· < ·) →
      (∀ t ∈ ts, ∀ u ∈ ts, t - (winS : Int) < u) →
      (runRequests path true ts w).1
          = (ts.enumFrom w.length).map
              (fun p => mkStepResponse maxR winS p.2 p.1)
        ∧ (runRequests path true ts w).2 = w ++ ts := by
  intro ts
  induction ts with
  | nil => intro w _ _ _; simp [runRequests]
  | cons t ts ih =>
    intro w hws hsort hwin
    have hstep : rate_limit_dispatch path true t w
        = (mkStepResponse maxR winS t w.length, w ++ [t]) := by
      apply rate_limit_step_eq path maxR winS t w hpath hR
      · intro s hs hcontra
        have := (hws t (List.mem_cons_self t ts) s hs).1
        omega
      · intro hmem
        have := (hws t (List.mem_cons_self t ts) t hmem).2
        omega
    have hrest := ih (w ++ [t])
      (by
        intro u hu s hs
        rcases List.mem_append.mp hs with h | h
        · exact hws u (List.mem_cons_of_mem t hu) s h
        · have hst : s = t := List.mem_singleton.mp h
          subst hst
          refine ⟨hwin u (List.mem_cons_of_mem _ hu) s (List.mem_cons_self _ _), ?_⟩
          exact (List.pairwise_cons.mp hsort).1 u hu)
      ((List.pairwise_cons.mp hsort).2)
      (by
        intro u hu v hv
        exact hwin u (List.mem_cons_of_mem t hu) v (List.mem_cons_of_mem t hv))
    simp only [runRequests, hstep]
    constructor
    · rw [hrest.1]
      simp [List.enumFrom, List.length_append]
    · rw [hrest.2]
      simp

/-- C10.  On every capped route with Redis reachable, the middleware's
new window state is `zadd` of the pruned window with the request's
timestamp, computed identically whether the request is then admitted or
rejected — the prune/count/append pipeline runs before the decision; in
particular the timestamp always lands in the new window, and a later
request within one window still counts it after its own prune, so a
rejected request consumes no less quota than an admitted one. -/
theorem c10_window_append (path : String) (maxR winS : Nat) (now : Int)
    (w : List Int) (hpath : get_rate_limit path = (maxR, winS)) (hR : maxR ≠ 0) :
    (rate_limit_dispatch path true now w).2
        = zaddMember (pruneWindow (now - (winS : Int)) w) now
    ∧ now ∈ (rate_limit_dispatch path true now w).2
    ∧ (∀ later : Int, later - (winS : Int) < now →
        now ∈ pruneWindow (later - (winS : Int))
          ((rate_limit_dispatch path true now w).2)) := by
  have h0 : ((maxR, winS).1 == 0) = false := by
    simpa using hR
  have hmem : ∀ l : List Int, now ∈ zaddMember l now := by
    intro l
    unfold zaddMember
    by_cases hc : l.contains now
    · rw [if_pos hc]
      exact List.elem_iff.mp hc
    · rw [if_neg hc]
      exact List.mem_append_right _ (List.mem_singleton_self _)
  have hstate : (rate_limit_dispatch path true now w).2
      = zaddMember (pruneWindow (now - (winS : Int)) w) now := by
    simp only [rate_limit_dispatch, hpath, h0, Bool.false_eq_true, if_false,
      Bool.not_true]
  refine ⟨hstate, by rw [hstate]; exact hmem _, ?_⟩
  intro later hlt
  rw [hstate]
  unfold pruneWindow
  apply List.mem_filter.mpr
  refine ⟨hmem _, ?_⟩
  simp only [Bool.not_eq_true', Bool.and_eq_false_iff, decide_eq_false_iff_not,
    not_le]
  omega

/-- C10 (witness).  The pipeline-before-decision law at a concrete
input: a capped API path, two live window entries, a follow-up request
20 seconds later. -/
theorem c10_window_append_witness :
    (get_rate_limit "/api/things" = (60, 60) ∧ (60 : Nat) ≠ 0)
    ∧ (rate_limit_dispatch "/api/things" true 100 [70, 90]).2
        = zaddMember (pruneWindow ((100 : Int) - 60) [70, 90]) 100
    ∧ (100 : Int) ∈ (rate_limit_dispatch "/api/things" true 100 [70, 90]).2
    ∧ (100 : Int) ∈ pruneWindow ((120 : Int) - 60)
        ((rate_limit_dispatch "/api/things" true 100 [70, 90]).2) := by
  have h := c10_window_append "/api/things" 60 60 100 [70, 90] (by decide)
    (by decide)
  exact ⟨⟨by decide, by decide⟩, h.1, h.2.1, h.2.2 120 (by decide)⟩

/-- C8.  Admission control on a capped route with Redis reachable: for a
burst of `N + 1` distinct, increasing request times all within one
window, the i-th request is answered from window count `i`; every
response with count below the limit is admitted and carries the
`X-RateLimit-Limit`, `X-RateLimit-Remaining` and `X-RateLimit-Reset`
headers, and the response with count `N` — the `(N+1)`-th request — is
rejected with the 429 `JSONResponse` carrying `Retry-After`. -/
theorem c8_admission_control (path : String) (N winS : Nat) (times : List Int)
    (hpath : get_rate_limit path = (N, winS)) (hN : 1 ≤ N)
    (hlen : times.length = N + 1)
    (hsorted : times.Pairwise (· < ·))
    (hwin : ∀ t ∈ times, ∀ u ∈ times, t - (winS : Int) < u) :
    (runRequests path true times []).1.length = N + 1
    ∧ (∀ (i : Nat) (t : Int), times[i]? = some t →
        (runRequests path true times []).1[i]?
          = some (mkStepResponse N winS t i))
    ∧ (∀ (now : Int) (count : Nat), count < N →
        (mkStepResponse N winS now count).rejected = false
        ∧ hasHeader (mkStepResponse N winS now count).headers
            "X-RateLimit-Limit" = true
        ∧ hasHeader (mkStepResponse N winS now count).headers
            "X-RateLimit-Remaining" = true
        ∧ hasHeader (mkStepResponse N winS now count).headers
            "X-RateLimit-Reset" = true)
    ∧ (∀ now : Int, (mkStepResponse N winS now N).rejected = true
        ∧ hasHeader (mkStepResponse N winS now N).headers "Retry-After"
            = true) := by
  have hrun := runRequests_spec path N winS hpath (by omega) times []
    (by intro t _ s hs; exact absurd hs (List.not_mem_nil s))
    hsorted hwin
  refine ⟨?_, ?_, ?_, ?_⟩
  · rw [hrun.1]
    simp [hlen]
  · intro i t ht
    rw [hrun.1]
    simp [ht]
  · intro now count hcount
    have hif : ¬ (N ≤ count) := Nat.not_le.mpr hcount
    refine ⟨?_, ?_, ?_, ?_⟩ <;>
      simp [mkStepResponse, hasHeader, hif]
  · intro now
    constructor <;> simp [mkStepResponse, hasHeader]

/-- C8 (witness).  Eleven requests within one minute to an auth path
capped at the strict default of 10: the first is admitted with the three
quota headers, the eleventh is rejected with 429 semantics and
`Retry-After`. -/
theorem c8_admission_control_witness :
    (get_rate_limit "/api/auth/login" = (10, 60)
      ∧ (1 : Nat) ≤ 10
      ∧ ([0, 1, 2, 3, 4, 5, 6, 7, 8, 9, 10] : List Int).length = 10 + 1
      ∧ ([0, 1, 2, 3, 4, 5, 6, 7, 8, 9, 10] : List Int).Pairwise (· < ·)
      ∧ (∀ t ∈ ([0, 1, 2, 3, 4, 5, 6, 7, 8, 9, 10] : List Int),
          ∀ u ∈ ([0, 1, 2, 3, 4, 5, 6, 7, 8, 9, 10] : List Int),
          t - (60 : Int) < u))
    ∧ (runRequests "/api/auth/login" true
        [0, 1, 2, 3, 4, 5, 6, 7, 8, 9, 10] []).1[10]?
        = some (mkStepResponse 10 60 10 10)
    ∧ (mkStepResponse 10 60 10 10).rejected = true
    ∧ hasHeader (mkStepResponse 10 60 10 10).headers "Retry-After" = true
    ∧ (mkStepResponse 10 60 (0 : Int) 0).rejected = false
    ∧ hasHeader (mkStepResponse 10 60 (0 : Int) 0).headers
        "X-RateLimit-Limit" = true := by
  have h := c8_admission_control "/api/auth/login" 10 60
    [0, 1, 2, 3, 4, 5, 6, 7, 8, 9, 10] (by decide) (by decide) (by decide)
    (by decide) (by decide)
  exact ⟨⟨by decide, by decide, by decide, by decide, by decide⟩,
    h.2.1 10 10 (by decide), (h.2.2.2 10).1, (h.2.2.2 10).2,
    (h.2.2.1 0 0 (by decide)).1, (h.2.2.1 0 0 (by decide)).2.1⟩

end InstaBot
